import Mathlib

/-!
Verification of the ha-brmesh-bridge music-reactive lighting core.

Shallow embedding of the algorithmic parts of the repository:

* `src/esphome-build/components/music_reactive/music_reactive.h`
  (class `MusicReactiveEffectUDP`): the UDP sound-sync codec
  (`broadcast_audio_data` / `receive_audio_data`), the spectral band
  computation (`analyze_frequencies`), the color mapping
  (`send_color_command`, `hsv_to_rgb`), the slave tick (`slave_loop`)
  and the link-status string (`get_status`).
* `src/esphome/fastcon_light_optimized.{h,cpp}` (class `FastconLight`):
  the debounced / deduplicated command dispatcher (`write_state`, `loop`).

Modelling conventions: C `float`/`double` values are modelled as `ℚ`
(exact rational arithmetic); `uint8_t`/`uint32`/`unsigned long` values
are modelled as `ℕ` with explicit `% 2^w` where the width matters
(`wsub` models 32-bit wraparound subtraction of `millis()` timestamps,
and `% 256` models the byte truncation of a `(uint8_t)` cast).
Byte buffers are `List ℕ`.  External collaborators (the FFT library,
the UDP socket, the BLE mesh transport, the log) are out of scope: the
FFT magnitudes reach `analyze_frequencies` as an arbitrary function
`vReal : ℕ → ℚ`, and a transport send is reported as a `Bool` in the
result of the function that would perform it.
-/

/-- 32-bit wraparound subtraction: models `now - t` on `uint32_t`
(`millis()` timestamps), i.e. `(now - t) mod 2^32`. -/
def wsub (a b : ℕ) : ℕ := (a + 4294967296 - b % 4294967296) % 4294967296

/-- Arduino `constrain(amt, low, high)`: `amt < low ? low : (amt > high ? high : amt)`. -/
def constrain (x lo hi : ℚ) : ℚ := if x < lo then lo else if x > hi then hi else x

/-- The byte quantization `(uint8_t)(v * 255.0)` used by
`MusicReactiveEffectUDP::broadcast_audio_data` (music_reactive.h lines
231-234): C float-to-integer conversion truncates toward zero, which for
`v ≥ 0` is the floor; the `% 256` models the cast to `uint8_t`. -/
def quantize (v : ℚ) : ℕ := (⌊v * 255⌋).toNat % 256

/-- The receiver-visible state of `MusicReactiveEffectUDP`
(music_reactive.h lines 46-61): the four frequency levels and the
statistics counters touched by `receive_audio_data` and `slave_loop`. -/
structure MusicState where
  volume : ℚ
  bass_level : ℚ
  mid_level : ℚ
  treble_level : ℚ
  packet_count : ℕ
  last_packet_time : ℕ
  last_update : ℕ
deriving DecidableEq

/-- The 18 reduced-spectrum bytes of the packet
(music_reactive.h lines 237-240):
`packet.fft_bins[i] = (uint8_t)(constrain(vReal[(i*SAMPLES/2)/18] * sensitivity * 255.0, 0.0, 255.0))`. -/
def fft_bins (vReal : ℕ → ℚ) (sensitivity : ℚ) : List ℕ :=
  (List.range 18).map fun i =>
    (⌊constrain (vReal (i * 256 / 2 / 18) * sensitivity * 255) 0 255⌋).toNat % 256

/-- `MusicReactiveEffectUDP::broadcast_audio_data` (music_reactive.h lines
227-246), restricted to the 24-byte `AudioSyncPacket` it writes to the
wire: header bytes `'A' = 65`, `'S' = 83`, then the four quantized
levels, then the 18 spectrum bins. -/
def broadcast_audio_data (volume bass_level mid_level treble_level : ℚ)
    (vReal : ℕ → ℚ) (sensitivity : ℚ) : List ℕ :=
  65 :: 83 :: quantize volume :: quantize bass_level :: quantize mid_level ::
    quantize treble_level :: fft_bins vReal sensitivity

/-- `MusicReactiveEffectUDP::receive_audio_data` (music_reactive.h lines
248-270): reads the first 24 bytes of the datagram, checks the two
header bytes first and returns with no state change on mismatch;
otherwise de-quantizes the four levels as `byte / 255.0`, increments
`packet_count` and records `last_packet_time = millis()`.  The returned
`Bool` is `true` when the packet was accepted. -/
def receive_audio_data (s : MusicState) (buf : List ℕ) (now : ℕ) : MusicState × Bool :=
  if buf.getD 0 0 ≠ 65 ∨ buf.getD 1 0 ≠ 83 then (s, false)
  else
    ({ s with
        volume := (buf.getD 2 0 : ℚ) / 255
        bass_level := (buf.getD 3 0 : ℚ) / 255
        mid_level := (buf.getD 4 0 : ℚ) / 255
        treble_level := (buf.getD 5 0 : ℚ) / 255
        packet_count := s.packet_count + 1
        last_packet_time := now }, true)

/-- One iteration of `MusicReactiveEffectUDP::slave_loop`
(music_reactive.h lines 152-171) in which `udp.parsePacket()` returned
the datagram `buf` (a tick without a pending datagram executes none of
the modelled state changes).  When the datagram has at least
`UDP_PACKET_SIZE = 24` bytes, `receive_audio_data` runs, and then color
mapping + sensor dispatch run only if at least 50 ms elapsed since
`last_update`.  The returned `Bool` records whether
`send_color_command` / `update_sensors` were invoked this tick. -/
def slave_loop (s : MusicState) (buf : List ℕ) (now : ℕ) : MusicState × Bool :=
  if 24 ≤ buf.length then
    if 50 ≤ wsub now ((receive_audio_data s buf now).1).last_update then
      ({ (receive_audio_data s buf now).1 with last_update := now }, true)
    else ((receive_audio_data s buf now).1, false)
  else (s, false)

/-- A run of consecutive `slave_loop` iterations over a list of
`(millis timestamp, datagram)` events; returns the final state and the
timestamps of the ticks that invoked color mapping + dispatch. -/
def slave_run : MusicState → List (ℕ × List ℕ) → MusicState × List ℕ
  | s, [] => (s, [])
  | s, e :: rest =>
    ((slave_run (slave_loop s e.2 e.1).1 rest).1,
      if (slave_loop s e.2 e.1).2 then e.1 :: (slave_run (slave_loop s e.2 e.1).1 rest).2
      else (slave_run (slave_loop s e.2 e.1).1 rest).2)

/-- The four outputs of `MusicReactiveEffectUDP::analyze_frequencies`
(music_reactive.h lines 185-225). -/
structure SpectrumLevels where
  bass_level : ℚ
  mid_level : ℚ
  treble_level : ℚ
  volume : ℚ

/-- `MusicReactiveEffectUDP::analyze_frequencies` (music_reactive.h
lines 185-225) after the FFT library calls: `vReal` holds the magnitude
spectrum produced by the external `arduinoFFT` collaborator.  Band
averages over bins 1-6 / 6-23 / 23-93, `volume` as the mean of the
three bands, then sensitivity scaling and `constrain` to `[0, 1]`. -/
def analyze_frequencies (vReal : ℕ → ℚ) (sensitivity : ℚ) : SpectrumLevels :=
  { bass_level := constrain ((∑ i in Finset.Icc 1 6, vReal i) / 6 * sensitivity) 0 1
    mid_level := constrain ((∑ i in Finset.Icc 6 23, vReal i) / 18 * sensitivity) 0 1
    treble_level := constrain ((∑ i in Finset.Icc 23 93, vReal i) / 71 * sensitivity) 0 1
    volume := constrain (((∑ i in Finset.Icc 1 6, vReal i) / 6 +
      (∑ i in Finset.Icc 6 23, vReal i) / 18 +
      (∑ i in Finset.Icc 23 93, vReal i) / 71) / 3 * sensitivity) 0 1 }

/-- `fmod` on the nonnegative arguments used by `hsv_to_rgb`. -/
def qfmod (a b : ℚ) : ℚ := a - b * ⌊a / b⌋

/-- `MusicReactiveEffectUDP::hsv_to_rgb` (music_reactive.h lines
307-330): six-sector HSV to RGB conversion, final bytes truncated by
the `(uint8_t)` cast. -/
def hsv_to_rgb (h s v : ℚ) : ℕ × ℕ × ℕ :=
  let c := v * s
  let x := c * (1 - |qfmod (h * 6) 2 - 1|)
  let m := v - c
  let p : ℚ × ℚ × ℚ :=
    if h < 0.166 then (c, x, 0) else if h < 0.333 then (x, c, 0)
    else if h < 0.5 then (0, c, x) else if h < 0.666 then (0, x, c)
    else if h < 0.833 then (x, 0, c) else (c, 0, x)
  ((⌊(p.1 + m) * 255⌋).toNat % 256, (⌊(p.2.1 + m) * 255⌋).toNat % 256,
   (⌊(p.2.2 + m) * 255⌋).toNat % 256)

/-- The RGB triple computed by `MusicReactiveEffectUDP::send_color_command`
(music_reactive.h lines 272-305) from the current levels and the
string-keyed color mode; byte truncation of each `(uint8_t)` cast is
modelled as floor followed by `% 256`.  The BRMesh payload built around
`(r, g, b)` and the mesh send are the external transport. -/
def send_color_command (color_mode : String)
    (bass_level mid_level treble_level volume : ℚ) : ℕ × ℕ × ℕ :=
  if color_mode = "RGB Frequency" then
    ((⌊bass_level * 255⌋).toNat % 256, (⌊mid_level * 255⌋).toNat % 256,
     (⌊treble_level * 255⌋).toNat % 256)
  else if color_mode = "Amplitude" then
    ((⌊volume * 255⌋).toNat % 256, (⌊volume * 255⌋).toNat % 256,
     (⌊volume * 255⌋).toNat % 256)
  else if color_mode = "Rainbow Cycle" then
    hsv_to_rgb
      (if max bass_level (max mid_level treble_level) = bass_level then 0
        else if max bass_level (max mid_level treble_level) = mid_level then 0.33
        else 0.66)
      1 (max bass_level (max mid_level treble_level))
  else if color_mode = "Bass Pulse" then
    if bass_level > 0.6 then (255, 0, 0)
    else ((⌊bass_level * 100⌋).toNat % 256, (⌊mid_level * 50⌋).toNat % 256,
      (⌊treble_level * 150⌋).toNat % 256)
  else (0, 0, 0)

/-- The divisor of the fps computation in the slave branch of
`MusicReactiveEffectUDP::get_status` (music_reactive.h lines 378-388):
when `millis() - last_packet_time < 2000` the "Receiving" branch
computes `1000.0 / (millis() - last_packet_time)` with exactly this
divisor; otherwise ("No signal") no division is performed. -/
def get_status_fps_divisor (now last_packet_time : ℕ) : Option ℕ :=
  if wsub now last_packet_time < 2000 then some (wsub now last_packet_time) else none

namespace FastconLight

/-- The dispatcher state of `FastconLight`
(fastcon_light_optimized.h lines 36-40; trailing underscores of the C++
member names dropped). -/
structure DispatchState where
  last_sent_data : List ℕ
  pending_data : List ℕ
  last_state_change : ℕ
  last_command_sent : ℕ
  has_pending : Bool
deriving DecidableEq

/-- fastcon_light_optimized.h line 42. -/
def DEBOUNCE_MS : ℕ := 100

/-- fastcon_light_optimized.h line 43. -/
def MIN_INTERVAL_MS : ℕ := 300

/-- The dispatcher effect of `FastconLight::write_state`
(fastcon_light_optimized.cpp lines 81-113): the advertisement payload
`adv_data` (produced by the external controller) is stored as pending
rather than sent. -/
def write_state (s : DispatchState) (adv_data : List ℕ) (now : ℕ) : DispatchState :=
  { s with pending_data := adv_data, last_state_change := now, has_pending := true }

/-- `FastconLight::loop` (fastcon_light_optimized.cpp lines 38-79):
debounce check, minimum-interval check, deduplication, then the send.
The returned `Bool` is `true` exactly when
`controller_->queueCommand(...)` is invoked. -/
def loop (s : DispatchState) (now : ℕ) : DispatchState × Bool :=
  if s.has_pending = false then (s, false)
  else if wsub now s.last_state_change < DEBOUNCE_MS then (s, false)
  else if wsub now s.last_command_sent < MIN_INTERVAL_MS then (s, false)
  else if s.pending_data = s.last_sent_data then ({ s with has_pending := false }, false)
  else ({ s with
      last_sent_data := s.pending_data
      last_command_sent := now
      has_pending := false }, true)

end FastconLight

/-! ## Helper lemmas -/

theorem wsub_eq_sub {a b : ℕ} (h1 : b ≤ a) (h2 : a < 4294967296) : wsub a b = a - b := by
  unfold wsub
  omega

theorem wsub_self (a : ℕ) : wsub a a = 0 := by
  unfold wsub
  omega

theorem constrain_mem {x lo hi : ℚ} (h : lo ≤ hi) :
    lo ≤ constrain x lo hi ∧ constrain x lo hi ≤ hi := by
  unfold constrain
  split_ifs with h1 h2
  · exact ⟨le_refl lo, h⟩
  · exact ⟨h, le_refl hi⟩
  · exact ⟨le_of_not_lt h1, le_of_not_lt h2⟩

theorem quantize_le_255 {v : ℚ} (h1 : v ≤ 1) : ⌊v * 255⌋ ≤ 255 := by
  have hv : (⌊v * 255⌋ : ℚ) ≤ 255 := le_trans (Int.floor_le _) (by linarith)
  exact_mod_cast hv

theorem quantize_eq_toNat_floor {v : ℚ} (h0 : 0 ≤ v) (h1 : v ≤ 1) :
    quantize v = (⌊v * 255⌋).toNat := by
  have hf : (0:ℤ) ≤ ⌊v * 255⌋ := Int.floor_nonneg.mpr (by positivity)
  have h255 := quantize_le_255 h1
  unfold quantize
  exact Nat.mod_eq_of_lt (by omega)

theorem quantize_cast {v : ℚ} (h0 : 0 ≤ v) (h1 : v ≤ 1) :
    ((quantize v : ℕ) : ℚ) = ((⌊v * 255⌋ : ℤ) : ℚ) := by
  have hf : (0:ℤ) ≤ ⌊v * 255⌋ := Int.floor_nonneg.mpr (by positivity)
  rw [quantize_eq_toNat_floor h0 h1]
  exact_mod_cast Int.toNat_of_nonneg hf

theorem quantize_close {v : ℚ} (h0 : 0 ≤ v) (h1 : v ≤ 1) :
    |((quantize v : ℕ) : ℚ) / 255 - v| ≤ 1 / 255 := by
  have hle : (⌊v * 255⌋ : ℚ) ≤ v * 255 := Int.floor_le _
  have hlt : v * 255 < ⌊v * 255⌋ + 1 := Int.lt_floor_add_one _
  rw [quantize_cast h0 h1, abs_le]
  constructor
  · linarith
  · linarith

theorem quantize_floor_bounds {v : ℚ} (h0 : 0 ≤ v) (h1 : v ≤ 1) :
    ((quantize v : ℕ) : ℚ) ≤ v * 255 ∧ v * 255 < ((quantize v : ℕ) : ℚ) + 1 := by
  have hle : (⌊v * 255⌋ : ℚ) ≤ v * 255 := Int.floor_le _
  have hlt : v * 255 < ⌊v * 255⌋ + 1 := Int.lt_floor_add_one _
  rw [quantize_cast h0 h1]
  exact ⟨hle, hlt⟩

theorem receive_preserves_last_update (s : MusicState) (buf : List ℕ) (now : ℕ) :
    ((receive_audio_data s buf now).1).last_update = s.last_update := by
  unfold receive_audio_data
  split <;> rfl

/-! ## Claims -/

/-- Claim C1: for every `SpectrumLevels` value whose fields lie in
`[0, 1]`, decoding the 24-byte packet produced by encoding it recovers
each of volume, bass, mid and treble within `1/255` absolute error of
the original field. -/
theorem decode_encode_roundtrip
    (volume bass_level mid_level treble_level : ℚ) (vReal : ℕ → ℚ) (sensitivity : ℚ)
    (s : MusicState) (now : ℕ)
    (hv0 : 0 ≤ volume) (hv1 : volume ≤ 1)
    (hb0 : 0 ≤ bass_level) (hb1 : bass_level ≤ 1)
    (hm0 : 0 ≤ mid_level) (hm1 : mid_level ≤ 1)
    (ht0 : 0 ≤ treble_level) (ht1 : treble_level ≤ 1) :
    |((receive_audio_data s
        (broadcast_audio_data volume bass_level mid_level treble_level vReal sensitivity)
        now).1).volume - volume| ≤ 1 / 255 ∧
    |((receive_audio_data s
        (broadcast_audio_data volume bass_level mid_level treble_level vReal sensitivity)
        now).1).bass_level - bass_level| ≤ 1 / 255 ∧
    |((receive_audio_data s
        (broadcast_audio_data volume bass_level mid_level treble_level vReal sensitivity)
        now).1).mid_level - mid_level| ≤ 1 / 255 ∧
    |((receive_audio_data s
        (broadcast_audio_data volume bass_level mid_level treble_level vReal sensitivity)
        now).1).treble_level - treble_level| ≤ 1 / 255 := by
  simp only [broadcast_audio_data, receive_audio_data, List.getD_cons_zero,
    List.getD_cons_succ]
  norm_num
  exact ⟨quantize_close hv0 hv1, quantize_close hb0 hb1,
    quantize_close hm0 hm1, quantize_close ht0 ht1⟩

/-- Witness for C1 at concrete levels `1/2`. -/
theorem decode_encode_roundtrip_witness :
    |((receive_audio_data ⟨0, 0, 0, 0, 0, 0, 0⟩
        (broadcast_audio_data (1/2) (1/2) (1/2) (1/2) (fun _ => 0) 1) 7).1).volume
      - 1/2| ≤ 1 / 255 := by
  exact (decode_encode_roundtrip (1/2) (1/2) (1/2) (1/2) (fun _ => 0) 1
    ⟨0, 0, 0, 0, 0, 0, 0⟩ 7 (by norm_num) (by norm_num) (by norm_num) (by norm_num)
    (by norm_num) (by norm_num) (by norm_num) (by norm_num)).1

/-- Claim C2: for every inbound buffer of at least 24 bytes whose first
two bytes differ from the fixed magic header `('A','S') = (65, 83)`,
decode returns failure and leaves all receiver state unchanged: the
four level fields, `packet_count` and `last_packet_time` keep their
prior values (no partial update). -/
theorem decode_bad_header_no_update (s : MusicState) (buf : List ℕ) (now : ℕ)
    (hlen : 24 ≤ buf.length)
    (hbad : ¬(buf.getD 0 0 = 65 ∧ buf.getD 1 0 = 83)) :
    receive_audio_data s buf now = (s, false) := by
  unfold receive_audio_data
  rw [if_pos]
  tauto

/-- Witness for C2: an all-zero 24-byte buffer is rejected without any
state change. -/
theorem decode_bad_header_no_update_witness :
    receive_audio_data ⟨0, 0, 0, 0, 0, 0, 0⟩ (List.replicate 24 0) 5
      = (⟨0, 0, 0, 0, 0, 0, 0⟩, false) := by
  exact decode_bad_header_no_update ⟨0, 0, 0, 0, 0, 0, 0⟩ (List.replicate 24 0) 5
    (by decide) (by decide)

/-- Counterexample for C5: at level `3/1000` the byte actually written
into the packet (offset 2, the volume byte) is `⌊0.765⌋ = 0`, while the
nearest integer to `0.003 * 255 = 0.765` is `1` — encoding truncates,
it does not round. -/
theorem encode_not_round_counterexample :
    ((broadcast_audio_data (3/1000) (3/1000) (3/1000) (3/1000) (fun _ => 0) 1).getD 2 0 : ℤ)
      ≠ round ((3/1000 : ℚ) * 255) := by
  have h1 : quantize (3/1000) = 0 := by
    unfold quantize
    rw [show ((3:ℚ)/1000 * 255) = 153/200 by norm_num]
    rw [show ⌊(153/200 : ℚ)⌋ = 0 by rw [Int.floor_eq_iff] <;> norm_num]
    decide
  have h2 : round ((3/1000 : ℚ) * 255) = 1 := by
    rw [round_eq]
    rw [show ((3:ℚ)/1000 * 255 + 1/2) = 253/200 by norm_num]
    rw [Int.floor_eq_iff] <;> norm_num
  simp only [broadcast_audio_data, List.getD_cons_succ, List.getD_cons_zero, h1, h2]
  decide

/-- Claim C5 (amended): for every level value in `[0, 1]`, encode
quantizes that float field into its wire byte by truncation, i.e. the
byte `q` written for volume, bass, mid and treble is the floor of
`value * 255`: it satisfies `q ≤ value * 255 < q + 1` (not the nearest
integer, which can differ from `q` by one). -/
theorem encode_truncates
    (volume bass_level mid_level treble_level : ℚ) (vReal : ℕ → ℚ) (sensitivity : ℚ)
    (hv0 : 0 ≤ volume) (hv1 : volume ≤ 1)
    (hb0 : 0 ≤ bass_level) (hb1 : bass_level ≤ 1)
    (hm0 : 0 ≤ mid_level) (hm1 : mid_level ≤ 1)
    (ht0 : 0 ≤ treble_level) (ht1 : treble_level ≤ 1) :
    (((broadcast_audio_data volume bass_level mid_level treble_level vReal sensitivity).getD 2 0 : ℚ)
        ≤ volume * 255 ∧
      volume * 255 <
        ((broadcast_audio_data volume bass_level mid_level treble_level vReal sensitivity).getD 2 0 : ℚ) + 1) ∧
    (((broadcast_audio_data volume bass_level mid_level treble_level vReal sensitivity).getD 3 0 : ℚ)
        ≤ bass_level * 255 ∧
      bass_level * 255 <
        ((broadcast_audio_data volume bass_level mid_level treble_level vReal sensitivity).getD 3 0 : ℚ) + 1) ∧
    (((broadcast_audio_data volume bass_level mid_level treble_level vReal sensitivity).getD 4 0 : ℚ)
        ≤ mid_level * 255 ∧
      mid_level * 255 <
        ((broadcast_audio_data volume bass_level mid_level treble_level vReal sensitivity).getD 4 0 : ℚ) + 1) ∧
    (((broadcast_audio_data volume bass_level mid_level treble_level vReal sensitivity).getD 5 0 : ℚ)
        ≤ treble_level * 255 ∧
      treble_level * 255 <
        ((broadcast_audio_data volume bass_level mid_level treble_level vReal sensitivity).getD 5 0 : ℚ) + 1) := by
  simp only [broadcast_audio_data, List.getD_cons_succ, List.getD_cons_zero]
  exact ⟨quantize_floor_bounds hv0 hv1, quantize_floor_bounds hb0 hb1,
    quantize_floor_bounds hm0 hm1, quantize_floor_bounds ht0 ht1⟩

/-- Witness for the amended C5 at concrete levels `1/2`. -/
theorem encode_truncates_witness :
    ((broadcast_audio_data (1/2) (1/2) (1/2) (1/2) (fun _ => 0) 1).getD 2 0 : ℚ)
        ≤ (1/2) * 255 ∧
      (1/2 : ℚ) * 255 <
        ((broadcast_audio_data (1/2) (1/2) (1/2) (1/2) (fun _ => 0) 1).getD 2 0 : ℚ) + 1 := by
  exact (encode_truncates (1/2) (1/2) (1/2) (1/2) (fun _ => 0) 1
    (by norm_num) (by norm_num) (by norm_num) (by norm_num) (by norm_num) (by norm_num)
    (by norm_num) (by norm_num)).1

/-- Claim C3: for every submit (`write_state`) of a payload different
from the last sent payload, every tick (`loop`) occurring strictly
before `DEBOUNCE_MS` (100 ms) have elapsed since the submit produces
zero transport sends (and leaves the dispatcher state unchanged, so
this holds of every such tick in succession), and the first tick at or
after `DEBOUNCE_MS` since the submit that is also at least
`MIN_INTERVAL_MS` (300 ms) after the last send produces exactly one
transport send. -/
theorem debounce_timing (s0 : FastconLight.DispatchState) (p : List ℕ) (t0 : ℕ)
    (hp : p ≠ s0.last_sent_data) :
    (∀ now, t0 ≤ now → now < 4294967296 → now - t0 < 100 →
      FastconLight.loop (FastconLight.write_state s0 p t0) now
        = (FastconLight.write_state s0 p t0, false)) ∧
    (∀ now, t0 ≤ now → s0.last_command_sent ≤ now → now < 4294967296 →
      100 ≤ now - t0 → 300 ≤ now - s0.last_command_sent →
      (FastconLight.loop (FastconLight.write_state s0 p t0) now).2 = true) := by
  constructor
  · intro now h1 h2 h3
    simp only [FastconLight.loop, FastconLight.write_state, FastconLight.DEBOUNCE_MS,
      FastconLight.MIN_INTERVAL_MS]
    rw [if_neg (by simp), if_pos (by rw [wsub_eq_sub h1 h2]; omega)]
  · intro now h1 h2 h3 h4 h5
    simp only [FastconLight.loop, FastconLight.write_state, FastconLight.DEBOUNCE_MS,
      FastconLight.MIN_INTERVAL_MS]
    rw [if_neg (by simp), if_neg (by rw [wsub_eq_sub h1 h3]; omega),
      if_neg (by rw [wsub_eq_sub h2 h3]; omega), if_neg (by simpa using hp)]

/-- Witness for C3: submit at `t = 1000`; the tick at `t = 1050`
(inside the debounce window) does not send, the tick at `t = 1300`
(past debounce and minimum interval) sends. -/
theorem debounce_timing_witness :
    FastconLight.loop (FastconLight.write_state ⟨[], [], 0, 0, false⟩ [1] 1000) 1050
        = (FastconLight.write_state ⟨[], [], 0, 0, false⟩ [1] 1000, false) ∧
      (FastconLight.loop (FastconLight.write_state ⟨[], [], 0, 0, false⟩ [1] 1000) 1300).2
        = true := by
  exact ⟨(debounce_timing ⟨[], [], 0, 0, false⟩ [1] 1000 (by decide)).1 1050
      (by decide) (by decide) (by decide),
    (debounce_timing ⟨[], [], 0, 0, false⟩ [1] 1000 (by decide)).2 1300
      (by decide) (by decide) (by decide) (by decide) (by decide)⟩

/-- Claim C4: for two consecutive submits of an identical payload with
the debounce and minimum-interval windows satisfied at the intervening
ticks, exactly one transport send occurs: the first tick sends, and at
the second tick the pending payload equals the last sent payload, so
the dispatcher drops it without sending and clears the pending flag. -/
theorem dedup_single_send (s0 : FastconLight.DispatchState) (p : List ℕ) (t0 t1 t2 t3 : ℕ)
    (hp : p ≠ s0.last_sent_data)
    (h01 : t0 ≤ t1) (hc1 : s0.last_command_sent ≤ t1) (hb1 : t1 < 4294967296)
    (hd1 : 100 ≤ t1 - t0) (hi1 : 300 ≤ t1 - s0.last_command_sent)
    (h23 : t2 ≤ t3) (h13 : t1 ≤ t3) (hb3 : t3 < 4294967296)
    (hd2 : 100 ≤ t3 - t2) (hi2 : 300 ≤ t3 - t1) :
    (FastconLight.loop (FastconLight.write_state s0 p t0) t1).2 = true ∧
    (FastconLight.loop (FastconLight.write_state
        (FastconLight.loop (FastconLight.write_state s0 p t0) t1).1 p t2) t3).2 = false ∧
    (FastconLight.loop (FastconLight.write_state
        (FastconLight.loop (FastconLight.write_state s0 p t0) t1).1 p t2) t3).1.has_pending
      = false := by
  have hstep1 : FastconLight.loop (FastconLight.write_state s0 p t0) t1
      = ({ last_sent_data := p, pending_data := p, last_state_change := t0,
           last_command_sent := t1, has_pending := false }, true) := by
    simp only [FastconLight.loop, FastconLight.write_state, FastconLight.DEBOUNCE_MS,
      FastconLight.MIN_INTERVAL_MS]
    rw [if_neg (by simp), if_neg (by rw [wsub_eq_sub h01 hb1]; omega),
      if_neg (by rw [wsub_eq_sub hc1 hb1]; omega), if_neg (by simpa using hp)]
  rw [hstep1]
  refine ⟨rfl, ?_, ?_⟩ <;>
  · simp only [FastconLight.loop, FastconLight.write_state, FastconLight.DEBOUNCE_MS,
      FastconLight.MIN_INTERVAL_MS]
    rw [if_neg (by simp), if_neg (by rw [wsub_eq_sub h23 hb3]; omega),
      if_neg (by rw [wsub_eq_sub h13 hb3]; omega)]
    simp

/-- Witness for C4: submit `[1]` at `t = 0`, send at `t = 400`;
resubmit `[1]` at `t = 500`; the tick at `t = 800` drops the duplicate
without a send and clears the pending flag. -/
theorem dedup_single_send_witness :
    (FastconLight.loop (FastconLight.write_state ⟨[], [], 0, 0, false⟩ [1] 0) 400).2 = true ∧
    (FastconLight.loop (FastconLight.write_state
        (FastconLight.loop (FastconLight.write_state ⟨[], [], 0, 0, false⟩ [1] 0) 400).1
        [1] 500) 800).2 = false ∧
    (FastconLight.loop (FastconLight.write_state
        (FastconLight.loop (FastconLight.write_state ⟨[], [], 0, 0, false⟩ [1] 0) 400).1
        [1] 500) 800).1.has_pending = false := by
  exact dedup_single_send ⟨[], [], 0, 0, false⟩ [1] 0 400 500 800 (by decide)
    (by decide) (by decide) (by decide) (by decide) (by decide) (by decide) (by decide)
    (by decide) (by decide) (by decide)

/-- Claim C6: for every 256-sample AudioFrame (presented here through
the magnitude spectrum `vReal` the external FFT produces from it) and
every `sensitivity ∈ [0, 10]`, the four outputs of the spectral
analysis (bass, mid, treble, volume) are each within `[0, 1]` after
sensitivity scaling and clamping, hence never negative (and, in this
exact-arithmetic model, never NaN). -/
theorem analyze_frequencies_bounded (vReal : ℕ → ℚ) (sensitivity : ℚ)
    (hs0 : 0 ≤ sensitivity) (hs10 : sensitivity ≤ 10) :
    (0 ≤ (analyze_frequencies vReal sensitivity).bass_level ∧
      (analyze_frequencies vReal sensitivity).bass_level ≤ 1) ∧
    (0 ≤ (analyze_frequencies vReal sensitivity).mid_level ∧
      (analyze_frequencies vReal sensitivity).mid_level ≤ 1) ∧
    (0 ≤ (analyze_frequencies vReal sensitivity).treble_level ∧
      (analyze_frequencies vReal sensitivity).treble_level ≤ 1) ∧
    (0 ≤ (analyze_frequencies vReal sensitivity).volume ∧
      (analyze_frequencies vReal sensitivity).volume ≤ 1) := by
  simp only [analyze_frequencies]
  exact ⟨constrain_mem (by norm_num), constrain_mem (by norm_num),
    constrain_mem (by norm_num), constrain_mem (by norm_num)⟩

/-- Witness for C6 at the zero spectrum and `sensitivity = 1`. -/
theorem analyze_frequencies_bounded_witness :
    (0 ≤ (analyze_frequencies (fun _ => 0) 1).bass_level ∧
      (analyze_frequencies (fun _ => 0) 1).bass_level ≤ 1) ∧
    (0 ≤ (analyze_frequencies (fun _ => 0) 1).mid_level ∧
      (analyze_frequencies (fun _ => 0) 1).mid_level ≤ 1) ∧
    (0 ≤ (analyze_frequencies (fun _ => 0) 1).treble_level ∧
      (analyze_frequencies (fun _ => 0) 1).treble_level ≤ 1) ∧
    (0 ≤ (analyze_frequencies (fun _ => 0) 1).volume ∧
      (analyze_frequencies (fun _ => 0) 1).volume ≤ 1) := by
  exact analyze_frequencies_bounded (fun _ => 0) 1 (by norm_num) (by norm_num)

/-- Counterexample for C8: the Bass Pulse intermediates grow with the
levels, so their largest reachable values occur at the extreme of the
clamped range, `mid = treble = 1` (with `bass = 1/2 ≤ 0.6` to stay in
the truncating branch): there `mid * 50 = 50` and `treble * 150 = 150`,
neither exceeding 255, and the channels `send_color_command` computes
are exactly `(50, 50, 150)` — the byte cast does not wrap, so the
claimed 8-bit wraparound does not occur even at the extremal input (the
amended theorem extends the bound to every clamped level). -/
theorem bass_pulse_overflow_counterexample :
    (1 : ℚ) * 50 ≤ 255 ∧ (1 : ℚ) * 150 ≤ 255 ∧
    send_color_command "Bass Pulse" (1/2) 1 1 0 = (50, 50, 150) := by
  refine ⟨by norm_num, by norm_num, ?_⟩
  simp only [send_color_command]
  rw [if_neg (by decide), if_neg (by decide), if_neg (by decide), if_pos trivial,
    if_neg (by norm_num)]
  rw [show ((1:ℚ)/2 * 100) = 50 by norm_num, show ((1:ℚ) * 50) = 50 by norm_num,
    show ((1:ℚ) * 150) = 150 by norm_num,
    show ⌊(50 : ℚ)⌋ = 50 by rw [Int.floor_eq_iff] <;> norm_num,
    show ⌊(150 : ℚ)⌋ = 150 by rw [Int.floor_eq_iff] <;> norm_num]
  decide

/-- Claim C8 (amended): for every levels in the clamped range `[0, 1]`
with `bass ≤ 0.6`, the Bass Pulse intermediate channel values satisfy
`mid * 50 ≤ 255` and `treble * 150 ≤ 255`, the channels computed by
`send_color_command` are the plain truncations (the `% 256` of the byte
cast never wraps), and they are bounded by 100, 50 and 150
respectively — no 8-bit wraparound can occur. -/
theorem bass_pulse_channels_bounded
    (bass_level mid_level treble_level volume : ℚ)
    (hb0 : 0 ≤ bass_level) (hb6 : bass_level ≤ 0.6)
    (hm0 : 0 ≤ mid_level) (hm1 : mid_level ≤ 1)
    (ht0 : 0 ≤ treble_level) (ht1 : treble_level ≤ 1) :
    mid_level * 50 ≤ 255 ∧ treble_level * 150 ≤ 255 ∧
    send_color_command "Bass Pulse" bass_level mid_level treble_level volume
      = ((⌊bass_level * 100⌋).toNat, (⌊mid_level * 50⌋).toNat, (⌊treble_level * 150⌋).toNat) ∧
    (send_color_command "Bass Pulse" bass_level mid_level treble_level volume).1 ≤ 100 ∧
    (send_color_command "Bass Pulse" bass_level mid_level treble_level volume).2.1 ≤ 50 ∧
    (send_color_command "Bass Pulse" bass_level mid_level treble_level volume).2.2 ≤ 150 := by
  have hbf : ⌊bass_level * 100⌋ ≤ 100 := by
    have h : (⌊bass_level * 100⌋ : ℚ) ≤ 100 := le_trans (Int.floor_le _) (by linarith)
    exact_mod_cast h
  have hmf : ⌊mid_level * 50⌋ ≤ 50 := by
    have h : (⌊mid_level * 50⌋ : ℚ) ≤ 50 := le_trans (Int.floor_le _) (by linarith)
    exact_mod_cast h
  have heq : send_color_command "Bass Pulse" bass_level mid_level treble_level volume
      = ((⌊bass_level * 100⌋).toNat, (⌊mid_level * 50⌋).toNat, (⌊treble_level * 150⌋).toNat) := by
    have htf : ⌊treble_level * 150⌋ ≤ 150 := by
      have h : (⌊treble_level * 150⌋ : ℚ) ≤ 150 := le_trans (Int.floor_le _) (by linarith)
      exact_mod_cast h
    simp only [send_color_command]
    rw [if_neg (by decide), if_neg (by decide), if_neg (by decide), if_pos trivial,
      if_neg (by push_neg; exact hb6)]
    rw [Nat.mod_eq_of_lt (by omega), Nat.mod_eq_of_lt (by omega), Nat.mod_eq_of_lt (by omega)]
  have htf : ⌊treble_level * 150⌋ ≤ 150 := by
    have h : (⌊treble_level * 150⌋ : ℚ) ≤ 150 := le_trans (Int.floor_le _) (by linarith)
    exact_mod_cast h
  refine ⟨by linarith, by linarith, heq, ?_, ?_, ?_⟩ <;> rw [heq]
  · show (⌊bass_level * 100⌋).toNat ≤ 100
    omega
  · show (⌊mid_level * 50⌋).toNat ≤ 50
    omega
  · show (⌊treble_level * 150⌋).toNat ≤ 150
    omega

/-- Witness for the amended C8 at `bass = 1/2`, `mid = 1`, `treble = 1`. -/
theorem bass_pulse_channels_bounded_witness :
    (1 : ℚ) * 50 ≤ 255 ∧ (1 : ℚ) * 150 ≤ 255 ∧
    send_color_command "Bass Pulse" (1/2) 1 1 0
      = ((⌊(1 : ℚ)/2 * 100⌋).toNat, (⌊(1 : ℚ) * 50⌋).toNat, (⌊(1 : ℚ) * 150⌋).toNat) ∧
    (send_color_command "Bass Pulse" (1/2) 1 1 0).1 ≤ 100 ∧
    (send_color_command "Bass Pulse" (1/2) 1 1 0).2.1 ≤ 50 ∧
    (send_color_command "Bass Pulse" (1/2) 1 1 0).2.2 ≤ 150 := by
  exact bass_pulse_channels_bounded (1/2) 1 1 0 (by norm_num) (by norm_num)
    (by norm_num) (by norm_num) (by norm_num) (by norm_num)

/-- Claim C9: for the input levels `bass = 0.9`, `mid = 0.1`,
`treble = 0.1` in RGB Frequency mode, the computed color is `(229, 25, 25)`,
which is within one (rounding) of the target `(230, 26, 26)`, and each
channel is within one of its band level times 255. -/
theorem rgb_frequency_scenario :
    send_color_command "RGB Frequency" (9/10) (1/10) (1/10) 0 = (229, 25, 25) ∧
    (|(229 : ℚ) - (9/10) * 255| ≤ 1 ∧ |(25 : ℚ) - (1/10) * 255| ≤ 1) ∧
    (|(229 : ℚ) - 230| ≤ 1 ∧ |(25 : ℚ) - 26| ≤ 1) := by
  refine ⟨?_, by rw [abs_le, abs_le]; constructor <;> constructor <;> norm_num,
    by rw [abs_le, abs_le]; constructor <;> constructor <;> norm_num⟩
  simp only [send_color_command]
  rw [if_pos trivial]
  rw [show ((9:ℚ)/10 * 255) = 459/2 by norm_num,
    show ⌊(459/2 : ℚ)⌋ = 229 by rw [Int.floor_eq_iff] <;> norm_num,
    show ((1:ℚ)/10 * 255) = 51/2 by norm_num,
    show ⌊(51/2 : ℚ)⌋ = 25 by rw [Int.floor_eq_iff] <;> norm_num]
  decide

/-- Claim C10: in the slave role, whenever the link-status string is
requested in the same millisecond in which `last_packet_time` was
recorded, the fps computation of `get_status` divides `1000.0` by zero
elapsed milliseconds: the elapsed time is 0, it is below the 2000 ms
"Receiving" threshold, and no guard prevents the division. -/
theorem get_status_divides_by_zero (t : ℕ) (h : t < 4294967296) :
    get_status_fps_divisor t t = some 0 := by
  unfold get_status_fps_divisor
  rw [wsub_self t]
  rfl

/-- Witness for C10 at `t = 1000`. -/
theorem get_status_divides_by_zero_witness :
    get_status_fps_divisor 1000 1000 = some 0 := by
  exact get_status_divides_by_zero 1000 (by decide)

/-- Auxiliary induction for C7: along a run of slave ticks with
nondecreasing timestamps, every dispatch tick is at least 50 ms after
the `last_update` it started from, so the dispatch times prefixed by
the initial `last_update` form a 50 ms-separated chain. -/
theorem slave_run_chain_aux (evs : List (ℕ × List ℕ)) : ∀ s : MusicState,
    (∀ e ∈ evs, e.1 < 4294967296) →
    List.Pairwise (· ≤ ·) (evs.map Prod.fst) →
    (∀ e ∈ evs, s.last_update ≤ e.1) →
    List.Chain' (fun a b => a + 50 ≤ b) (s.last_update :: (slave_run s evs).2) := by
  induction evs with
  | nil =>
    intro s _ _ _
    simp [slave_run]
  | cons e rest ih =>
    intro s hb hm hs
    obtain ⟨t, buf⟩ := e
    have ht : s.last_update ≤ t := hs (t, buf) (List.mem_cons_self _ _)
    have htb : t < 4294967296 := hb (t, buf) (List.mem_cons_self _ _)
    have hrest_le : ∀ e ∈ rest, t ≤ e.1 := by
      intro e' he'
      have := (List.pairwise_cons.mp (by simpa using hm)).1 e'.1
        (List.mem_map_of_mem Prod.fst he')
      exact this
    have hb' : ∀ e ∈ rest, e.1 < 4294967296 := fun e' he' => hb e' (List.mem_cons_of_mem _ he')
    have hm' : List.Pairwise (· ≤ ·) (rest.map Prod.fst) :=
      (List.pairwise_cons.mp (by simpa using hm)).2
    have hlu : ((receive_audio_data s buf t).1).last_update = s.last_update :=
      receive_preserves_last_update s buf t
    by_cases hlen : 24 ≤ buf.length
    · by_cases hdisp : 50 ≤ wsub t ((receive_audio_data s buf t).1).last_update
      · have hloop : slave_loop s buf t
            = ({ (receive_audio_data s buf t).1 with last_update := t }, true) := by
          unfold slave_loop
          rw [if_pos hlen, if_pos hdisp]
        have hsep : s.last_update + 50 ≤ t := by
          rw [hlu, wsub_eq_sub ht htb] at hdisp
          omega
        have htail := ih { (receive_audio_data s buf t).1 with last_update := t }
          hb' hm' hrest_le
        simp only [slave_run, hloop]
        exact List.chain'_cons.mpr ⟨hsep, htail⟩
      · have hloop : slave_loop s buf t = ((receive_audio_data s buf t).1, false) := by
          unfold slave_loop
          rw [if_pos hlen, if_neg hdisp]
        have htail := ih (receive_audio_data s buf t).1 hb' hm'
          (by rw [hlu]; exact fun e' he' => le_trans ht (hrest_le e' he'))
        simp only [slave_run, hloop]
        rw [hlu] at htail
        exact htail
    · have hloop : slave_loop s buf t = (s, false) := by
        unfold slave_loop
        rw [if_neg hlen]
      have htail := ih s hb' hm' (fun e' he' => le_trans ht (hrest_le e' he'))
      simp only [slave_run, hloop]
      exact htail

/-- Claim C7: in the slave role, for every sequence of valid inbound
packets, each successfully decoded packet updates the level fields,
increments the packet counter and records `last_packet_time` (first
conjunct), while color mapping and dispatch are invoked at most once
per 50 ms regardless of the packet arrival rate: along any run with
nondecreasing `millis()` timestamps, consecutive dispatch times differ
by at least 50 ms (second conjunct). -/
theorem slave_rate_limit (s0 : MusicState) (evs : List (ℕ × List ℕ))
    (hvalid : ∀ e ∈ evs, 24 ≤ e.2.length ∧ e.2.getD 0 0 = 65 ∧ e.2.getD 1 0 = 83)
    (hmono : List.Pairwise (· ≤ ·) (evs.map Prod.fst))
    (hbound : ∀ e ∈ evs, e.1 < 4294967296)
    (hstart : ∀ e ∈ evs, s0.last_update ≤ e.1) :
    (∀ (s : MusicState) (buf : List ℕ) (now : ℕ),
      buf.getD 0 0 = 65 → buf.getD 1 0 = 83 →
      ((receive_audio_data s buf now).1.volume = (buf.getD 2 0 : ℚ) / 255 ∧
        (receive_audio_data s buf now).1.bass_level = (buf.getD 3 0 : ℚ) / 255 ∧
        (receive_audio_data s buf now).1.mid_level = (buf.getD 4 0 : ℚ) / 255 ∧
        (receive_audio_data s buf now).1.treble_level = (buf.getD 5 0 : ℚ) / 255) ∧
      (receive_audio_data s buf now).1.packet_count = s.packet_count + 1 ∧
      (receive_audio_data s buf now).1.last_packet_time = now) ∧
    List.Chain' (fun a b => a + 50 ≤ b) ((slave_run s0 evs).2) := by
  constructor
  · intro s buf now h0 h1
    unfold receive_audio_data
    rw [if_neg (by rw [h0, h1]; simp)]
    exact ⟨⟨rfl, rfl, rfl, rfl⟩, rfl, rfl⟩
  · exact (slave_run_chain_aux evs s0 hbound hmono hstart).tail

/-- Witness for C7: two valid packets 60 ms apart, both dispatched, the
dispatch times 50 ms-separated. -/
theorem slave_rate_limit_witness :
    List.Chain' (fun a b => a + 50 ≤ b)
      ((slave_run ⟨0, 0, 0, 0, 0, 0, 0⟩
        [(100, 65 :: 83 :: List.replicate 22 0), (160, 65 :: 83 :: List.replicate 22 0)]).2) := by
  exact (slave_rate_limit ⟨0, 0, 0, 0, 0, 0, 0⟩
    [(100, 65 :: 83 :: List.replicate 22 0), (160, 65 :: 83 :: List.replicate 22 0)]
    (by decide) (by decide) (by decide) (by decide)).2
